import Mathlib

/-!
Verification of the graceful-shutdown coordinator of package `graceful`
(TV4/graceful). The model is a shallow embedding of the Go source: time is
measured in nanoseconds (Go `time.Duration` is an int64 nanosecond count),
the shutdown routine starts at time 0, logging is instantaneous, and only
the collaborator calls (`s.Shutdown(ctx)` and the Handler's `Shutdown(ctx)`)
consume time. Each run yields the emitted log lines, the instant the
coordinator returns, and the trace of collaborator calls together with the
context deadline each call observed. Durations are carried as unbounded
integers, and int64 overflow is made explicit exactly where the source
performs machine arithmetic on them: the `Duration` addition in the
rounded-seconds expression wraps in two's complement, while `time.Until`
(via `time.Time.Sub`) saturates at the `Duration` range per its contract.
-/

namespace Graceful

/-- `time.Second` in nanoseconds. -/
def second : Int := 1000000000

/-- `math.MaxInt64`, the largest value of `time.Duration`. -/
def maxInt64 : Int := 9223372036854775807

/-- Go integer division on `int64` truncates toward zero. -/
def goDiv (a b : Int) : Int := Int.tdiv a b

/-- Two's-complement int64 wraparound: Go's `+` on `time.Duration` overflows
silently into the interval `[-2^63, 2^63)`. -/
def wrap64 (x : Int) : Int :=
  (x + 9223372036854775808) % 18446744073709551616 - 9223372036854775808

/-- Saturation of `time.Time.Sub`, hence of `time.Until`: a difference beyond
the `Duration` range is clamped to the maximum (minimum) duration. -/
def sat64 (x : Int) : Int :=
  if x < -9223372036854775808 then -9223372036854775808
  else if maxInt64 < x then maxInt64
  else x

/-- The rounded whole-seconds figure the source computes at lines 189 and 213:
`(time.Until(deadline) + time.Second/2) / time.Second`, where `rem` stands for
the mathematical remaining time `deadline - now` at the moment of the
computation. `time.Until` saturates it into int64 range; the addition of
`time.Second/2` is int64 `Duration` arithmetic and wraps on overflow; the
division truncates toward zero. -/
def roundSecs (rem : Int) : Int :=
  goDiv (wrap64 (sat64 rem + goDiv second 2)) second

/-- Modelled from the spec: the nearest-whole-second rounding `round(T)` that
§8 of the spec refers to, written over unbounded integers from the spec's
words for comparison with the figure the code computes. -/
def specRound (rem : Int) : Int := (rem + 500000000) / 1000000000

/-- Errors returned by collaborator calls. `deadlineExceeded` and `canceled`
are the two context errors; `serverClosed` is `http.ErrServerClosed`;
`other n` stands for any further distinct non-nil error value. -/
inductive Err where
  | deadlineExceeded : Err
  | canceled : Err
  | serverClosed : Err
  | other : Nat → Err
deriving DecidableEq, Repr

/-- One log line, one constructor per format string of the source
(`ListeningFormat`, `ShutdownFormat`, `ErrorFormat`, `FinishedHTTP`,
`HandlerShutdownFormat`, `FinishedFormat`), carrying the formatted argument. -/
inductive LogLine where
  | listening : String → LogLine
  | shutdownAnnounce : Int → LogLine
  | errorLine : Err → LogLine
  | finishedHTTP : LogLine
  | handlerShutdownAnnounce : Int → LogLine
  | finishedOverall : Int → LogLine
deriving DecidableEq, Repr

/-- A collaborator invocation, recording the deadline of the context the
collaborator was handed. -/
inductive Call where
  | serverShutdown : Int → Call
  | handlerShutdown : Int → Call
deriving DecidableEq, Repr

/-- The context deadline a collaborator call observed. -/
def Call.ctxDeadline : Call → Int
  | .serverShutdown d => d
  | .handlerShutdown d => d

/-- Behavior of a Handler that implements the optional `Shutdowner` interface:
how long its `Shutdown(ctx)` call runs before returning (`none` = it blocks
forever) and the error it then returns (`none` = nil). It is third-party code,
so the model does not assume it reacts to the context. -/
structure HandlerSpec where
  dur : Option Int
  result : Option Err

/-- A value implementing the `Shutdowner` interface as observed by `shutdown`:
whether its dynamic type is `*http.Server` (line 177), its `Addr` field, its
`Handler` (`some` exactly when the handler implements `Shutdowner`, line 180;
only ever inspected when `isHTTPServer`), and the behavior of `s.Shutdown(ctx)`
as a function of the context deadline: elapsed time and returned error. -/
structure Shutdowner where
  isHTTPServer : Bool
  addr : String
  handler : Option HandlerSpec
  sdElapsed : Int → Int
  sdResult : Int → Option Err

/-- Everything observable about one run of `shutdown`: the log, the instant
the routine returns (start of the run = 0), and the collaborator calls. -/
structure ShutdownResult where
  log : List LogLine
  finish : Int
  calls : List Call
deriving DecidableEq, Repr

/-- Model of `shutdown(s, logger)` (src/unnamed/part_000 lines 160-217).
`none` is a nil `Shutdowner`. The run starts at time 0, so the context built
at line 169 has deadline `0 + timeout`; `timeout` is the value of the global
`Timeout` read there. The context's done-channel is closed at an instant `t`
iff `timeout ≤ t`, and then `ctx.Err()` is `deadlineExceeded` (the deferred
`cancel` only runs after the routine returns). In the race of lines 193-207,
the handler goroutine wins iff it finishes strictly before the deadline;
otherwise the deadline goroutine delivers `ctx.Err()` at the deadline. -/
def shutdown (s : Option Shutdowner) (timeout : Int) : ShutdownResult :=
  match s with
  | none => ⟨[], 0, []⟩
  | some sv =>
    let deadline := timeout
    let l0 := [LogLine.shutdownAnnounce timeout]
    let c0 := [Call.serverShutdown deadline]
    let t1 := sv.sdElapsed deadline
    match sv.sdResult deadline with
    | some e => ⟨l0 ++ [LogLine.errorLine e], t1, c0⟩
    | none =>
      if sv.isHTTPServer then
        let l1 := l0 ++ [LogLine.finishedHTTP]
        match sv.handler with
        | some h =>
          if deadline ≤ t1 then
            ⟨l1 ++ [LogLine.errorLine Err.deadlineExceeded], t1, c0⟩
          else
            let l2 := l1 ++ [LogLine.handlerShutdownAnnounce (roundSecs (deadline - t1))]
            let c1 := c0 ++ [Call.handlerShutdown deadline]
            match h.dur with
            | none => ⟨l2 ++ [LogLine.errorLine Err.deadlineExceeded], deadline, c1⟩
            | some hd =>
              if t1 + hd < deadline then
                match h.result with
                | some e => ⟨l2 ++ [LogLine.errorLine e], t1 + hd, c1⟩
                | none =>
                  ⟨l2 ++ [LogLine.finishedOverall (roundSecs (deadline - (t1 + hd)))],
                    t1 + hd, c1⟩
              else
                ⟨l2 ++ [LogLine.errorLine Err.deadlineExceeded], deadline, c1⟩
        | none => ⟨l1 ++ [LogLine.finishedOverall (roundSecs (deadline - t1))], t1, c0⟩
      else
        ⟨l0 ++ [LogLine.finishedOverall (roundSecs (deadline - t1))], t1, c0⟩

/-- The goroutine body of `ListenAndServe` (lines 128-132): `logger.Fatal` is
called iff `s.ListenAndServe()` returned anything but `http.ErrServerClosed`
(`none` stands for a nil error). -/
def listenAndServeFatal (r : Option Err) : Bool :=
  if r = some Err.serverClosed then false else true

/-- The goroutine body of `ListenAndServeTLS` (lines 139-143): identical
comparison against `http.ErrServerClosed`. -/
def listenAndServeTLSFatal (r : Option Err) : Bool :=
  if r = some Err.serverClosed then false else true

/-- Model of `net.JoinHostPort`: `host:port`, bracketing a host that contains
a colon (the colon search is over the host's characters). -/
def joinHostPort (host port : String) : String :=
  if host.data.contains ':' then "[" ++ host ++ "]:" ++ port
  else host ++ ":" ++ port

/-- Log lines `LogListenAndServe` (lines 110-124) emits itself before
delegating: only when the argument is concretely a `*http.Server` and only
when `net.SplitHostPort` accepts its `Addr` (the `split` parameter stands for
`net.SplitHostPort`, an external collaborator), with an empty host replaced by
`net.IPv4zero.String()`. -/
def logListenAndServeAnnounce (split : String → Option (String × String))
    (sv : Shutdowner) : List LogLine :=
  if sv.isHTTPServer then
    match split sv.addr with
    | some (host, port) =>
      [LogLine.listening (joinHostPort (if host = "" then "0.0.0.0" else host) port)]
    | none => []
  else []

/-- Observable log of `ListenAndServe(s)` on the main flow: `Shutdown(s)`
blocks for the signal and then runs `shutdown(s, logger)` (lines 127-135,
150-158). -/
def listenAndServeLog (sv : Shutdowner) (timeout : Int) : List LogLine :=
  (shutdown (some sv) timeout).log

/-- Observable log of `LogListenAndServe(s, ...)`: its own announcement
followed by everything the delegated `ListenAndServe(s)` produces
(line 123). -/
def logListenAndServeLog (split : String → Option (String × String))
    (sv : Shutdowner) (timeout : Int) : List LogLine :=
  logListenAndServeAnnounce split sv ++ listenAndServeLog sv timeout

/-- Sample collaborators used by the witnesses. -/
def instantServer : Shutdowner :=
  ⟨true, ":2017", none, fun _ => 0, fun _ => none⟩

def failingServer : Shutdowner :=
  ⟨true, ":2017", none, fun _ => second, fun _ => some (Err.other 7)⟩

def blockingHookServer : Shutdowner :=
  ⟨true, ":2017", some ⟨none, none⟩, fun _ => 0, fun _ => none⟩

def promptHookServer : Shutdowner :=
  ⟨true, ":2017", some ⟨some second, none⟩, fun _ => second, fun _ => none⟩

def slowDrainHookServer : Shutdowner :=
  ⟨true, ":2017", some ⟨some 0, none⟩, fun d => d + second, fun _ => none⟩

def plainShutdowner : Shutdowner :=
  ⟨false, "", some ⟨some 0, none⟩, fun _ => second, fun _ => none⟩

def instantDrainHookServer : Shutdowner :=
  ⟨true, ":2017", some ⟨some second, none⟩, fun _ => 0, fun _ => none⟩

/-- Sample stand-in for `net.SplitHostPort`, accepting only ":2017". -/
def splitDemo : String → Option (String × String) :=
  fun a => if a = ":2017" then some ("", "2017") else none

theorem goDiv_half_second : goDiv second 2 = 500000000 := by decide

theorem sat64_of_mem {x : Int} (h1 : 0 ≤ x) (h2 : x ≤ maxInt64) : sat64 x = x := by
  unfold sat64 maxInt64 at *
  split_ifs <;> omega

theorem wrap64_of_mem {x : Int} (h1 : 0 ≤ x) (h2 : x ≤ maxInt64) : wrap64 x = x := by
  unfold wrap64 maxInt64 at *
  omega

/-- Where the int64 addition cannot wrap, the code's figure is the plain
truncated division of `rem + time.Second/2`. -/
theorem roundSecs_of_mem {x : Int} (h1 : 0 ≤ x) (h2 : x + 500000000 ≤ maxInt64) :
    roundSecs x = goDiv (x + 500000000) second := by
  have hx : x ≤ maxInt64 := by unfold maxInt64 at *; omega
  unfold roundSecs
  rw [goDiv_half_second, sat64_of_mem h1 hx, wrap64_of_mem (by omega) h2]

/-- Where the int64 addition cannot wrap, the code's figure agrees with the
spec's nearest-second rounding. -/
theorem roundSecs_eq_specRound {x : Int} (h1 : 0 ≤ x)
    (h2 : x + 500000000 ≤ maxInt64) : roundSecs x = specRound x := by
  rw [roundSecs_of_mem h1 h2]
  unfold specRound goDiv second
  exact Int.tdiv_eq_ediv (by omega) (by omega)

/-- The rounded remaining-seconds figure is monotone in the remaining time,
on the nonnegative wrap-free range. -/
theorem roundSecs_mono {x y : Int} (hx : 0 ≤ x) (hxy : x ≤ y)
    (hy : y + 500000000 ≤ maxInt64) : roundSecs x ≤ roundSecs y := by
  have hx2 : x + 500000000 ≤ maxInt64 := by omega
  rw [roundSecs_of_mem hx hx2, roundSecs_of_mem (le_trans hx hxy) hy]
  unfold goDiv second
  rw [Int.tdiv_eq_ediv (by omega) (by omega), Int.tdiv_eq_ediv (by omega) (by omega)]
  exact Int.ediv_le_ediv (by omega) (by omega)

/-- Claim C7: for a nil `Shutdowner`, `shutdown` logs nothing, invokes no
collaborator, and returns immediately: a no-op, not an error, and trivially
idempotent since it leaves no observable trace. -/
theorem nil_server_noop (timeout : Int) :
    shutdown none timeout = ⟨[], 0, []⟩ :=
  rfl

/-- Claim C2: when the Server's `Shutdown` call returns a non-nil error, the
coordinator logs the shutdown-announce line followed by exactly one error
line and returns; it never logs the finished-http-drain or finished-overall
lines and never invokes the Handler's `Shutdown` hook. -/
theorem server_drain_error (sv : Shutdowner) (T : Int) (e : Err)
    (hres : sv.sdResult T = some e) :
    (shutdown (some sv) T).log = [.shutdownAnnounce T, .errorLine e]
    ∧ (shutdown (some sv) T).calls = [.serverShutdown T]
    ∧ LogLine.finishedHTTP ∉ (shutdown (some sv) T).log
    ∧ (∀ n, LogLine.finishedOverall n ∉ (shutdown (some sv) T).log)
    ∧ (∀ d, Call.handlerShutdown d ∉ (shutdown (some sv) T).calls) := by
  simp [shutdown, hres]

theorem server_drain_error_witness :
    failingServer.sdResult (15 * second) = some (Err.other 7)
    ∧ (shutdown (some failingServer) (15 * second)).log =
        [.shutdownAnnounce (15 * second), .errorLine (Err.other 7)] :=
  ⟨rfl, (server_drain_error failingServer (15 * second) (Err.other 7) rfl).1⟩

/-- Claim C4 as stated is false of the code: at `Timeout = math.MaxInt64`
(a legal value of the exported `Timeout` variable), an instantly-succeeding
drain with no hook makes the int64 addition
`time.Until(deadline) + time.Second/2` at line 213 wrap negative, so the
program logs the figure -9223372036 and not `round(T) = 9223372037`. -/
theorem instant_drain_no_hook_cex :
    (0 : Int) ≤ maxInt64
    ∧ instantServer.sdResult maxInt64 = none
    ∧ instantServer.sdElapsed maxInt64 = 0
    ∧ instantServer.isHTTPServer = true
    ∧ instantServer.handler = none
    ∧ (shutdown (some instantServer) maxInt64).log =
        [.shutdownAnnounce maxInt64, .finishedHTTP, .finishedOverall (-9223372036)]
    ∧ (shutdown (some instantServer) maxInt64).log ≠
        [.shutdownAnnounce maxInt64, .finishedHTTP,
          .finishedOverall (specRound maxInt64)] := by
  exact ⟨by decide, rfl, rfl, rfl, rfl, by decide, by decide⟩

/-- Claim C4 amended: for every timeout `T ≥ 0` such that `T + time.Second/2`
still fits in int64 (so the rounding addition at line 213 cannot wrap), and a
`*http.Server` whose `Shutdown` succeeds instantly with no `Handler` hook,
the coordinator logs exactly three lines in order: shutdown-announce with
`T`, finished-http-drain, and finished-overall with remaining seconds equal
to the spec's nearest-second rounding `round(T)`. -/
theorem instant_drain_no_hook (sv : Shutdowner) (T : Int) (hT : 0 ≤ T)
    (hrange : T + 500000000 ≤ maxInt64)
    (hres : sv.sdResult T = none) (helapsed : sv.sdElapsed T = 0)
    (hhttp : sv.isHTTPServer = true) (hh : sv.handler = none) :
    (shutdown (some sv) T).log =
      [.shutdownAnnounce T, .finishedHTTP, .finishedOverall (specRound T)] := by
  have hr := roundSecs_eq_specRound hT hrange
  simp [shutdown, hres, helapsed, hhttp, hh, hr]

theorem instant_drain_no_hook_witness :
    ((0 : Int) ≤ 15 * second ∧ 15 * second + 500000000 ≤ maxInt64)
    ∧ (shutdown (some instantServer) (15 * second)).log =
        [.shutdownAnnounce (15 * second), .finishedHTTP, .finishedOverall 15] := by
  refine ⟨⟨by decide, by decide⟩, ?_⟩
  have h := instant_drain_no_hook instantServer (15 * second) (by decide) (by decide)
    rfl rfl rfl rfl
  rw [h]
  decide

/-- Claim C10: the handler-shutdown phase, the finished-http-drain line and the
probing of the Handler all happen only for a concrete `*http.Server`. For any
other `Shutdowner` whose `Shutdown` succeeds, the coordinator logs only the
shutdown-announce and finished-overall lines, and the handler is never probed
or invoked, even when it implements the shutdown capability. -/
theorem non_http_skips_handler_phase (sv : Shutdowner) (T : Int)
    (hres : sv.sdResult T = none) (hhttp : sv.isHTTPServer = false) :
    (shutdown (some sv) T).log =
      [.shutdownAnnounce T, .finishedOverall (roundSecs (T - sv.sdElapsed T))]
    ∧ (shutdown (some sv) T).calls = [.serverShutdown T]
    ∧ LogLine.finishedHTTP ∉ (shutdown (some sv) T).log
    ∧ (∀ d, Call.handlerShutdown d ∉ (shutdown (some sv) T).calls) := by
  simp [shutdown, hres, hhttp]

theorem non_http_skips_handler_phase_witness :
    plainShutdowner.handler = some ⟨some 0, none⟩
    ∧ plainShutdowner.isHTTPServer = false
    ∧ (shutdown (some plainShutdowner) (15 * second)).log =
        [.shutdownAnnounce (15 * second), .finishedOverall 14] := by
  refine ⟨rfl, rfl, ?_⟩
  have h := (non_http_skips_handler_phase plainShutdowner (15 * second) rfl rfl).1
  rw [h]
  decide

/-- Claim C5: before attempting the Handler's `Shutdown`, the coordinator makes
a non-blocking check of the deadline scope; if it has already expired at that
moment, it logs the expiry error and returns, and the Handler's `Shutdown` is
never invoked. -/
theorem expired_precheck (sv : Shutdowner) (T : Int) (h : HandlerSpec)
    (hres : sv.sdResult T = none) (hhttp : sv.isHTTPServer = true)
    (hh : sv.handler = some h) (hexp : T ≤ sv.sdElapsed T) :
    (shutdown (some sv) T).log =
      [.shutdownAnnounce T, .finishedHTTP, .errorLine Err.deadlineExceeded]
    ∧ (shutdown (some sv) T).calls = [.serverShutdown T]
    ∧ (∀ d, Call.handlerShutdown d ∉ (shutdown (some sv) T).calls) := by
  simp [shutdown, hres, hhttp, hh, hexp]

theorem expired_precheck_witness :
    (15 * second : Int) ≤ slowDrainHookServer.sdElapsed (15 * second)
    ∧ (shutdown (some slowDrainHookServer) (15 * second)).log =
        [.shutdownAnnounce (15 * second), .finishedHTTP,
          .errorLine Err.deadlineExceeded] := by
  refine ⟨by decide, ?_⟩
  exact (expired_precheck slowDrainHookServer (15 * second) ⟨some 0, none⟩
    rfl rfl rfl (by decide)).1

/-- Claim C1: in the handler-shutdown phase the Handler's `Shutdown` is raced
against the deadline: for every Handler whose `Shutdown` does not finish
strictly before the deadline, the Handler's `Shutdown` is still invoked, the
coordinator logs the deadline-expiry error, never logs the finished-overall
line, and returns no later than the deadline `T`. -/
theorem handler_blocks_deadline (sv : Shutdowner) (T : Int) (h : HandlerSpec)
    (hres : sv.sdResult T = none) (hhttp : sv.isHTTPServer = true)
    (hh : sv.handler = some h) (hlive : sv.sdElapsed T < T)
    (hblock : ∀ hd, h.dur = some hd → T ≤ sv.sdElapsed T + hd) :
    Call.handlerShutdown T ∈ (shutdown (some sv) T).calls
    ∧ LogLine.errorLine Err.deadlineExceeded ∈ (shutdown (some sv) T).log
    ∧ (∀ n, LogLine.finishedOverall n ∉ (shutdown (some sv) T).log)
    ∧ (shutdown (some sv) T).finish ≤ T := by
  have hnot : ¬ (T ≤ sv.sdElapsed T) := not_le.mpr hlive
  cases hdur : h.dur with
  | none => simp [shutdown, hres, hhttp, hh, hnot, hdur]
  | some hd =>
    have hge : ¬ (sv.sdElapsed T + hd < T) := not_lt.mpr (hblock hd hdur)
    simp [shutdown, hres, hhttp, hh, hnot, hdur, hge]

theorem handler_blocks_deadline_witness :
    blockingHookServer.sdElapsed (15 * second) < 15 * second
    ∧ LogLine.errorLine Err.deadlineExceeded ∈
        (shutdown (some blockingHookServer) (15 * second)).log
    ∧ (shutdown (some blockingHookServer) (15 * second)).finish ≤ 15 * second := by
  have h := handler_blocks_deadline blockingHookServer (15 * second) ⟨none, none⟩
    rfl rfl rfl (by decide) (fun hd hcontra => nomatch hcontra)
  exact ⟨by decide, h.2.1, h.2.2.2⟩

/-- Claim C6 as stated is false of the code: at `Timeout = math.MaxInt64`
with an instant drain, the handler-shutdown-announce figure at line 189 wraps
negative (-9223372036), while after a one-second successful hook the
remaining time has shrunk below the wrap sliver and the finished-overall
figure at line 213 is the positive 9223372036, violating the claimed
announce ≥ finished-overall relation for a hook that completed strictly
before the deadline. -/
theorem handler_completes_in_time_cex :
    instantDrainHookServer.sdResult maxInt64 = none
    ∧ instantDrainHookServer.isHTTPServer = true
    ∧ instantDrainHookServer.handler = some ⟨some second, none⟩
    ∧ instantDrainHookServer.sdElapsed maxInt64 + second < maxInt64
    ∧ (shutdown (some instantDrainHookServer) maxInt64).log =
        [.shutdownAnnounce maxInt64, .finishedHTTP,
          .handlerShutdownAnnounce (-9223372036), .finishedOverall 9223372036]
    ∧ ¬ ((9223372036 : Int) ≤ -9223372036) := by
  exact ⟨rfl, rfl, rfl, by decide, by decide, by decide⟩

/-- Claim C6 amended: for a Handler hook that completes its shutdown
successfully strictly before the deadline, provided the remaining time at the
announce point plus half a second still fits in int64 (so neither rounding
addition can wrap), the coordinator logs, in order, shutdown-announce,
finished-http-drain, handler-shutdown-announce with the rounded remaining
seconds, then finished-overall with the rounded remaining seconds at that
later instant, and the former figure is ≥ the latter. -/
theorem handler_completes_in_time (sv : Shutdowner) (T : Int) (h : HandlerSpec)
    (hd : Int) (hres : sv.sdResult T = none) (hhttp : sv.isHTTPServer = true)
    (hh : sv.handler = some h) (hdur : h.dur = some hd) (hok : h.result = none)
    (hd0 : 0 ≤ hd) (hfin : sv.sdElapsed T + hd < T)
    (hrange : T - sv.sdElapsed T + 500000000 ≤ maxInt64) :
    (shutdown (some sv) T).log =
      [.shutdownAnnounce T, .finishedHTTP,
        .handlerShutdownAnnounce (roundSecs (T - sv.sdElapsed T)),
        .finishedOverall (roundSecs (T - (sv.sdElapsed T + hd)))]
    ∧ roundSecs (T - (sv.sdElapsed T + hd)) ≤ roundSecs (T - sv.sdElapsed T) := by
  have hlive : ¬ (T ≤ sv.sdElapsed T) := by omega
  constructor
  · simp [shutdown, hres, hhttp, hh, hdur, hok, hlive, hfin]
  · exact roundSecs_mono (by omega) (by omega) hrange

theorem handler_completes_in_time_witness :
    (promptHookServer.sdElapsed (15 * second) + second < 15 * second
      ∧ 15 * second - promptHookServer.sdElapsed (15 * second) + 500000000 ≤ maxInt64)
    ∧ (shutdown (some promptHookServer) (15 * second)).log =
        [.shutdownAnnounce (15 * second), .finishedHTTP,
          .handlerShutdownAnnounce 14, .finishedOverall 13]
    ∧ (13 : Int) ≤ 14 := by
  refine ⟨⟨by decide, by decide⟩, ?_, by decide⟩
  have h := (handler_completes_in_time promptHookServer (15 * second)
    ⟨some second, none⟩ second rfl rfl rfl rfl rfl (by decide) (by decide) (by decide)).1
  rw [h]
  decide

/-- Claim C3: the deadline is computed once per shutdown, as start time 0 plus
the `Timeout` value read at line 169, and every collaborator call of the run
(the Server's `Shutdown` and, when reached, the Handler's `Shutdown`) observes
that very same context deadline; no branch creates a second timeout. -/
theorem single_deadline (s : Option Shutdowner) (T : Int) :
    ∀ c ∈ (shutdown s T).calls, c.ctxDeadline = T := by
  intro c hc
  cases s with
  | none => simp [shutdown] at hc
  | some sv =>
    rcases hres : sv.sdResult T with _ | e
    · cases hhttp : sv.isHTTPServer
      · simp [shutdown, hres, hhttp] at hc
        subst hc; rfl
      · rcases hh : sv.handler with _ | h
        · simp [shutdown, hres, hhttp, hh] at hc
          subst hc; rfl
        · by_cases hexp : T ≤ sv.sdElapsed T
          · simp [shutdown, hres, hhttp, hh, hexp] at hc
            subst hc; rfl
          · rcases hdur : h.dur with _ | hd
            · simp [shutdown, hres, hhttp, hh, hexp, hdur] at hc
              rcases hc with hc | hc <;> subst hc <;> rfl
            · by_cases hrace : sv.sdElapsed T + hd < T
              · rcases hok : h.result with _ | e2
                · simp [shutdown, hres, hhttp, hh, hexp, hdur, hrace, hok] at hc
                  rcases hc with hc | hc <;> subst hc <;> rfl
                · simp [shutdown, hres, hhttp, hh, hexp, hdur, hrace, hok] at hc
                  rcases hc with hc | hc <;> subst hc <;> rfl
              · simp [shutdown, hres, hhttp, hh, hexp, hdur, hrace] at hc
                rcases hc with hc | hc <;> subst hc <;> rfl
    · simp [shutdown, hres] at hc
      subst hc; rfl

theorem single_deadline_witness :
    Call.handlerShutdown (15 * second) ∈
      (shutdown (some promptHookServer) (15 * second)).calls
    ∧ (Call.handlerShutdown (15 * second)).ctxDeadline = 15 * second := by
  refine ⟨by decide, ?_⟩
  exact single_deadline (some promptHookServer) (15 * second)
    (Call.handlerShutdown (15 * second)) (by decide)

/-- Claim C8: the accept-loop goroutines of `ListenAndServe` and
`ListenAndServeTLS` call the Logger's `Fatal` exactly when the
listen-and-serve call returns something other than `http.ErrServerClosed`;
on exactly that sentinel no fatal abort occurs. -/
theorem fatal_on_unexpected_error :
    (∀ e : Err, e ≠ Err.serverClosed →
      listenAndServeFatal (some e) = true ∧ listenAndServeTLSFatal (some e) = true)
    ∧ listenAndServeFatal (some Err.serverClosed) = false
    ∧ listenAndServeTLSFatal (some Err.serverClosed) = false := by
  refine ⟨fun e he => ?_, rfl, rfl⟩
  simp [listenAndServeFatal, listenAndServeTLSFatal, he]

theorem fatal_on_unexpected_error_witness :
    Err.other 0 ≠ Err.serverClosed
    ∧ listenAndServeFatal (some (Err.other 0)) = true
    ∧ listenAndServeTLSFatal (some (Err.other 0)) = true := by
  refine ⟨by decide, ?_, ?_⟩
  · exact (fatal_on_unexpected_error.1 (Err.other 0) (by decide)).1
  · exact (fatal_on_unexpected_error.1 (Err.other 0) (by decide)).2

/-- Claim C9: when the argument is a `*http.Server` whose `Addr` the address
splitter accepts, `LogListenAndServe` logs exactly one listening line built
from the resolved host (an empty host replaced by the wildcard 0.0.0.0) and
port, and the rest of its observable log is exactly the delegated
`ListenAndServe` log: it does no other independent work. -/
theorem log_listen_and_serve_resolves (split : String → Option (String × String))
    (sv : Shutdowner) (T : Int) (host port : String)
    (hhttp : sv.isHTTPServer = true)
    (hsplit : split sv.addr = some (host, port)) :
    logListenAndServeLog split sv T =
      LogLine.listening (joinHostPort (if host = "" then "0.0.0.0" else host) port)
        :: listenAndServeLog sv T := by
  simp [logListenAndServeLog, logListenAndServeAnnounce, hhttp, hsplit]

theorem log_listen_and_serve_resolves_witness :
    splitDemo instantServer.addr = some ("", "2017")
    ∧ logListenAndServeLog splitDemo instantServer (15 * second) =
        [LogLine.listening "0.0.0.0:2017", .shutdownAnnounce (15 * second),
          .finishedHTTP, .finishedOverall 15] := by
  refine ⟨rfl, ?_⟩
  have h := log_listen_and_serve_resolves splitDemo instantServer (15 * second)
    "" "2017" rfl rfl
  rw [h]
  decide

end Graceful
